import Mathlib

/-
  Verification of the storage and retry core of the opencode fork.

  Shallow embedding of:
  - src/packages/opencode/src/session/retry.ts        (namespace SessionRetry)
  - the MultiSqliteBackend storage backend            (namespace MultiSqliteBackend)
  - src/packages/opencode/src/storage/json-backend.ts (namespace JsonBackend)

  JS numbers are modelled as rationals; every value reached by the claims is
  exactly representable as a double, so the rational model agrees with the
  runtime arithmetic there.  Attempt counters are 1-based natural numbers, as
  in the API contract.
-/

/-- JS errors: subclasses produced by NamedError.create carry a tag name;
a bare Error carries only a message. -/
inductive JsError where
  | named (name : String) (message : String)
  | plain (message : String)
deriving DecidableEq, Repr

instance {e a : Type} [DecidableEq e] [DecidableEq a] : DecidableEq (Except e a) := fun x y =>
  match x, y with
  | Except.ok u, Except.ok v =>
    if h : u = v then isTrue (congrArg Except.ok h) else isFalse (fun hc => h (Except.ok.inj hc))
  | Except.error u, Except.error v =>
    if h : u = v then isTrue (congrArg Except.error h)
    else isFalse (fun hc => h (Except.error.inj hc))
  | Except.ok _, Except.error _ => isFalse (fun hc => Except.noConfusion hc)
  | Except.error _, Except.ok _ => isFalse (fun hc => Except.noConfusion hc)

/-- Array.prototype.join("/") on a list of segments. -/
def joinSegs : List String → String
  | [] => ""
  | [a] => a
  | a :: b :: rest => a ++ "/" ++ joinSegs (b :: rest)

namespace SessionRetry

/-- Abstraction of one JS response-header string: the only operations retry.ts
performs on it are a truthiness test, Number.parseFloat, and Date.parse.
Each parse field is none when the parse yields NaN. -/
structure HdrVal where
  truthy : Bool
  parseFloat : Option ℚ
  dateParse : Option ℚ
deriving DecidableEq, Repr

/-- A JS header string is well formed when falsiness (the string "") implies
that both parses fail: parseFloat("") and Date.parse("") are NaN. -/
def HdrVal.wfb (v : HdrVal) : Bool :=
  v.truthy || (v.parseFloat == none && v.dateParse == none)

/-- The two headers retry.ts reads; none models an absent map entry. -/
structure RespHeaders where
  retryAfterMs : Option HdrVal
  retryAfter : Option HdrVal
deriving DecidableEq, Repr

def RespHeaders.wfb (h : RespHeaders) : Bool :=
  (match h.retryAfterMs with | some v => v.wfb | none => true) &&
  (match h.retryAfter with | some v => v.wfb | none => true)

/-- MessageV2.APIError as used by retry.ts: error.data.responseHeaders. -/
structure APIError where
  responseHeaders : Option RespHeaders
deriving DecidableEq, Repr

def APIError.wfb (e : APIError) : Bool :=
  match e.responseHeaders with | some h => h.wfb | none => true

def RETRY_INITIAL_DELAY : ℚ := 2000
def RETRY_BACKOFF_FACTOR : ℚ := 2
def RETRY_MAX_DELAY_NO_HEADERS : ℚ := 30000

/-- RETRY_INITIAL_DELAY * Math.pow(RETRY_BACKOFF_FACTOR, attempt - 1)
for a 1-based attempt. -/
def expBackoff (attempt : ℕ) : ℚ :=
  RETRY_INITIAL_DELAY * RETRY_BACKOFF_FACTOR ^ (attempt - 1)

/-- The retry-after branch of SessionRetry.delay (retry.ts lines 34-48):
numeric seconds, then HTTP date, then uncapped exponential backoff. -/
def delayRetryAfter (now : ℚ) (retryAfter : Option HdrVal) (attempt : ℕ) : ℚ :=
  match retryAfter with
  | some v =>
    if v.truthy then
      match v.parseFloat with
      | some parsedSeconds => ((⌈parsedSeconds * 1000⌉ : ℤ) : ℚ)
      | none =>
        match v.dateParse with
        | some d => if 0 < d - now then ((⌈d - now⌉ : ℤ) : ℚ) else expBackoff attempt
        | none => expBackoff attempt
    else expBackoff attempt
  | none => expBackoff attempt

/-- SessionRetry.delay (retry.ts lines 23-52). -/
def delay (now : ℚ) (error : APIError) (attempt : ℕ) : ℚ :=
  match error.responseHeaders with
  | some headers =>
    (match headers.retryAfterMs with
    | some v =>
      if v.truthy then
        match v.parseFloat with
        | some parsedMs => parsedMs
        | none => delayRetryAfter now headers.retryAfter attempt
      else delayRetryAfter now headers.retryAfter attempt
    | none => delayRetryAfter now headers.retryAfter attempt)
  | none => min (expBackoff attempt) RETRY_MAX_DELAY_NO_HEADERS

/-- SessionRetry.getRetryDelayInMs (retry.ts lines 54-74).  With headers the
base is delay(); without headers it is the uncapped exponential.  Either is
given up on above the fixed TEN_MINUTES = 600000 cap. -/
def getRetryDelayInMs (now : ℚ) (error : APIError) (attempt : ℕ) : Option ℚ :=
  match error.responseHeaders with
  | some _ =>
    let baseDelay := delay now error attempt
    if 600000 < baseDelay then none else some baseDelay
  | none =>
    let exponential := expBackoff attempt
    if 600000 < exponential then none else some exponential

structure BoundedDelayArgs where
  error : APIError
  attempt : ℕ
  startTime : ℚ
  maxDuration : Option ℚ
deriving DecidableEq, Repr

/-- SessionRetry.getBoundedDelay (retry.ts lines 76-102). -/
def getBoundedDelay (now : ℚ) (args : BoundedDelayArgs) : Option ℚ :=
  let RETRY_TIMEOUT := args.maxDuration.getD 600000
  let elapsedTime := now - args.startTime
  let remainingTime := RETRY_TIMEOUT - elapsedTime
  if remainingTime ≤ 0 then none
  else
    match getRetryDelayInMs now args.error args.attempt with
    | none => none
    | some retryDelay =>
      let boundedDelay := min retryDelay remainingTime
      if 0 < boundedDelay then some boundedDelay else none

/-- A header value "parses as a number" when present and parseFloat succeeds. -/
def parsedNum (h : Option HdrVal) : Option ℚ := h.bind (fun v => v.parseFloat)

/-- A header value "parses as an HTTP date" when present and Date.parse succeeds. -/
def parsedDate (h : Option HdrVal) : Option ℚ := h.bind (fun v => v.dateParse)

/-- The delay algorithm exactly as worded in claim C9. -/
def delaySpecC9 (now : ℚ) (error : APIError) (attempt : ℕ) : ℚ :=
  match error.responseHeaders with
  | none => min (expBackoff attempt) 30000
  | some headers =>
    match parsedNum headers.retryAfterMs with
    | some n => n
    | none =>
      match parsedNum headers.retryAfter with
      | some n => ((⌈n * 1000⌉ : ℤ) : ℚ)
      | none =>
        match parsedDate headers.retryAfter with
        | some d => if 0 < d - now then ((⌈d - now⌉ : ℤ) : ℚ) else expBackoff attempt
        | none => expBackoff attempt

/-- The base value getRetryDelayInMs caps: delay() when headers are present,
the uncapped exponential when they are absent. -/
def baseDelay (now : ℚ) (error : APIError) (attempt : ℕ) : ℚ :=
  match error.responseHeaders with
  | some _ => delay now error attempt
  | none => expBackoff attempt

/-- The bounded delay exactly as worded in claim C1: "give up" iff elapsed
exceeds maxDuration, or the uncapped delay exceeds maxDuration, or the capped
delay is nonpositive; otherwise min(delay, maxDuration - elapsed). -/
def boundedDelaySpecC1 (now : ℚ) (error : APIError) (attempt : ℕ)
    (startTime : ℚ) (maxDuration : Option ℚ) : Option ℚ :=
  let maxDur := maxDuration.getD 600000
  let elapsed := now - startTime
  let d := delay now error attempt
  if maxDur ≤ elapsed ∨ maxDur < d ∨ min d (maxDur - elapsed) ≤ 0 then none
  else some (min d (maxDur - elapsed))

end SessionRetry

/-- One ASCII character of SQLite's default case folding. -/
def asciiLower (c : Char) : Char :=
  if 'A' ≤ c ∧ c ≤ 'Z' then Char.ofNat (c.toNat + 32) else c

def lowerAscii (s : String) : String := String.map asciiLower s

/-- SQLite LIKE with pattern p ++ "%": an ASCII-case-insensitive check that
the key starts with p. -/
def likeMatch (p : String) (key : String) : Bool :=
  (lowerAscii key).startsWith (lowerAscii p)

namespace MultiSqliteBackend

/-- Row of the sessions table of the per-project metadata DB.  TEXT columns
hold Option String so that SQL NULL (a bound JS undefined) is representable;
project_id is declared NOT NULL but a bound parameter may still be NULL,
which surfaces as a constraint failure on INSERT. -/
structure MetaRow where
  session_id : Option String
  project_id : Option String
  data : String
  created_at : ℕ
  updated_at : ℕ
deriving DecidableEq, Repr

/-- Row of the storage table of a per-session DB. -/
structure StorageRow where
  key : String
  type : String
  data : String
  created_at : ℕ
  updated_at : ℕ
deriving DecidableEq, Repr

/-- In-memory state of one MultiSqliteBackend instance plus the on-disk state
it owns.  sessionFiles doubles as the sessionDBs handle cache and the set of
sessions/{id}.db files: within one process the two coincide (entries are
created together in getSessionDB and dropped together in remove).  Keys of
the two maps are JS values that may be undefined, hence Option String.
clock is the unixepoch value; it ticks on every SQL write so that updated_at
values are distinct. -/
structure Backend where
  meta : List MetaRow
  sessionFiles : List (Option String × List StorageRow)
  messageSessionCache : List (Option String × Option String)
  clock : ℕ
deriving DecidableEq, Repr

/-- The state right after the constructor ran: empty metadata DB, no session
DB files, empty message cache. -/
def Backend.init : Backend := ⟨[], [], [], 0⟩

/-- JS Map.get. -/
def lookupA {α : Type} (m : List (Option String × α)) (k : Option String) : Option α :=
  (m.find? (fun p => p.1 == k)).map (fun p => p.2)

/-- JS Map.set: updates in place, else appends (insertion order preserved). -/
def setA {α : Type} (m : List (Option String × α)) (k : Option String) (v : α) :
    List (Option String × α) :=
  if m.any (fun p => p.1 == k) then m.map (fun p => if p.1 == k then (k, v) else p)
  else m ++ [(k, v)]

/-- JS Map.delete. -/
def eraseA {α : Type} (m : List (Option String × α)) (k : Option String) :
    List (Option String × α) :=
  m.filter (fun p => !(p.1 == k))

/-- SQL equality on nullable TEXT: any comparison with NULL is not true. -/
def sqlEq (a b : Option String) : Bool :=
  match a, b with
  | some x, some y => x == y
  | _, _ => false

/-- JS truthiness of a string-or-undefined: undefined and "" are falsy. -/
def jsFalsy (s : Option String) : Bool :=
  match s with
  | none => true
  | some str => str == ""

/-- JS template-literal interpolation of a string-or-undefined value. -/
def tmpl (s : Option String) : String := s.getD "undefined"

/-- Result of MultiSqliteBackend.parseKey (part_002 lines 124-155). -/
structure ParsedKey where
  type : Option String
  sessionID : Option String
  id : Option String
deriving DecidableEq, Repr

/-- MultiSqliteBackend.parseKey.  For part keys the session is resolved
through the in-memory messageID to sessionID map; Option.join collapses a
missing entry and a stored undefined exactly as Map.get does. -/
def parseKey (cache : List (Option String × Option String)) (key : List String) :
    ParsedKey :=
  let t := key.get? 0
  let rest := key.drop 1
  if t == some "session" then ⟨t, rest.get? 1, none⟩
  else if t == some "message" then ⟨t, rest.get? 0, rest.get? 1⟩
  else if t == some "part" then ⟨t, (lookupA cache (rest.get? 0)).join, rest.get? 1⟩
  else if t == some "session_diff" then ⟨t, rest.get? 0, none⟩
  else ⟨t, none, none⟩

/-- MultiSqliteBackend.getSessionDB (part_002 lines 85-122): returns the
cached DB, otherwise opens (and thereby creates on disk) an empty one and
caches it. -/
def getSessionDB (b : Backend) (sessionID : Option String) :
    List StorageRow × Backend :=
  match lookupA b.sessionFiles sessionID with
  | some rows => (rows, b)
  | none => ([], { b with sessionFiles := b.sessionFiles ++ [(sessionID, [])] })

/-- INSERT ... ON CONFLICT(key) DO UPDATE SET data=excluded.data,
updated_at=unixepoch() against a per-session storage table. -/
def upsertRow (rows : List StorageRow) (keyStr ty data : String) (clock : ℕ) :
    List StorageRow :=
  if rows.any (fun r => r.key == keyStr) then
    rows.map (fun r =>
      if r.key == keyStr then { r with data := data, updated_at := clock } else r)
  else rows ++ [⟨keyStr, ty, data, clock, clock⟩]

/-- MultiSqliteBackend.read (part_002 lines 157-193).  The Backend is
returned alongside the result because getSessionDB may create a DB file
before the row lookup fails. -/
def read (b : Backend) (key : List String) : Except JsError String × Backend :=
  let keyStr := joinSegs key
  let parsed := parseKey b.messageSessionCache key
  if parsed.type == some "session" then
    match b.meta.find? (fun r => sqlEq r.session_id parsed.sessionID) with
    | some row => (Except.ok row.data, b)
    | none =>
      (Except.error (JsError.named "NotFoundError" ("Resource not found: " ++ keyStr)), b)
  else if parsed.type == some "message" || parsed.type == some "part" then
    if jsFalsy parsed.sessionID then
      (Except.error (JsError.plain ("Cannot read " ++ tmpl parsed.type ++ ": session unknown")), b)
    else
      let res := getSessionDB b parsed.sessionID
      match res.1.find? (fun r => r.key == keyStr) with
      | some row => (Except.ok row.data, res.2)
      | none =>
        (Except.error (JsError.named "NotFoundError" ("Resource not found: " ++ keyStr)), res.2)
  else (Except.error (JsError.plain ("Unknown key type: " ++ tmpl parsed.type)), b)

/-- MultiSqliteBackend.write (part_002 lines 195-260). -/
def write (b : Backend) (key : List String) (data : String) :
    Except JsError Unit × Backend :=
  let keyStr := joinSegs key
  let parsed := parseKey b.messageSessionCache key
  if parsed.type == some "session" then
    let projectID := key.get? 1
    let sessionID := key.get? 2
    if b.meta.any (fun r => sqlEq r.session_id sessionID) then
      (Except.ok (),
        { b with
          meta := b.meta.map (fun r =>
            if sqlEq r.session_id sessionID then
              { r with data := data, updated_at := b.clock }
            else r),
          clock := b.clock + 1 })
    else
      match projectID with
      | none => (Except.error (JsError.plain "NOT NULL constraint failed: sessions.project_id"), b)
      | some _ =>
        (Except.ok (),
          { b with
            meta := b.meta ++ [⟨sessionID, projectID, data, b.clock, b.clock⟩],
            clock := b.clock + 1 })
  else if parsed.type == some "message" then
    let b1 := { b with messageSessionCache := setA b.messageSessionCache parsed.id parsed.sessionID }
    let res := getSessionDB b1 parsed.sessionID
    let rows := upsertRow res.1 keyStr "message" data res.2.clock
    (Except.ok (),
      { res.2 with
        sessionFiles := setA res.2.sessionFiles parsed.sessionID rows,
        clock := res.2.clock + 1 })
  else if parsed.type == some "part" then
    if jsFalsy parsed.sessionID then
      (Except.error (JsError.plain
        ("Cannot write part: session unknown for message " ++ tmpl (key.get? 1))), b)
    else
      let res := getSessionDB b parsed.sessionID
      let rows := upsertRow res.1 keyStr "part" data res.2.clock
      (Except.ok (),
        { res.2 with
          sessionFiles := setA res.2.sessionFiles parsed.sessionID rows,
          clock := res.2.clock + 1 })
  else (Except.error (JsError.plain ("Unknown key type: " ++ tmpl parsed.type)), b)

/-- MultiSqliteBackend.remove (part_002 lines 269-306).  Session removal
deletes the metadata row and unlinks the session DB file; message and part
removal issues DELETE WHERE key = ? OR key LIKE ?||Char.ofNat 47||Char.ofNat 37;
unknown key types fall off the switch and resolve silently. -/
def remove (b : Backend) (key : List String) : Except JsError Unit × Backend :=
  let parsed := parseKey b.messageSessionCache key
  if parsed.type == some "session" then
    let b1 := { b with meta := b.meta.filter (fun r => !(sqlEq r.session_id parsed.sessionID)) }
    (Except.ok (), { b1 with sessionFiles := eraseA b1.sessionFiles parsed.sessionID })
  else if parsed.type == some "message" || parsed.type == some "part" then
    let keyStr := joinSegs key
    if jsFalsy parsed.sessionID then
      (Except.error (JsError.plain ("Cannot remove " ++ tmpl parsed.type ++ ": session unknown")), b)
    else
      let res := getSessionDB b parsed.sessionID
      let rows := res.1.filter (fun r => !(r.key == keyStr || likeMatch (keyStr ++ "/") r.key))
      (Except.ok (), { res.2 with sessionFiles := setA res.2.sessionFiles parsed.sessionID rows })
  else (Except.ok (), b)

/-- SELECT key ... ORDER BY key uses the BINARY collation: plain string order. -/
def sortStr (l : List String) : List String := List.insertionSort (· ≤ ·) l

/-- ORDER BY updated_at DESC. -/
def descUpdated (r1 r2 : MetaRow) : Prop := r2.updated_at ≤ r1.updated_at

instance : DecidableRel descUpdated := fun a b => Nat.decLe b.updated_at a.updated_at

instance : IsTotal MetaRow descUpdated := ⟨fun a b => le_total b.updated_at a.updated_at⟩

instance : IsTrans MetaRow descUpdated := ⟨fun _ _ _ h1 h2 => le_trans h2 h1⟩

def sortMetaDesc (l : List MetaRow) : List MetaRow := List.insertionSort descUpdated l

/-- MultiSqliteBackend.list (part_002 lines 308-338).  Note that for message
and part prefixes the session DB is resolved from the second prefix segment.
In the session branch the source returns raw JS values in the key arrays;
tmpl stands in for them (they differ from the model only when a malformed
prefix or a NULL session_id row makes a component undefined). -/
def list (b : Backend) (pfx : List String) : List (List String) × Backend :=
  let prefixStr := joinSegs pfx
  let t := pfx.get? 0
  if t == some "session" then
    let projectID := pfx.get? 1
    let rows := sortMetaDesc (b.meta.filter (fun r => sqlEq r.project_id projectID))
    (rows.map (fun r => ["session", tmpl projectID, tmpl r.session_id]), b)
  else if t == some "message" || t == some "part" then
    let sessionID := pfx.get? 1
    let res := getSessionDB b sessionID
    let keys := res.1.map (fun r => r.key)
    let matched := if prefixStr == "" then keys else keys.filter (likeMatch (prefixStr ++ "/"))
    ((sortStr matched).map (fun k => k.splitOn "/"), res.2)
  else ([], b)

/-- The file sessions/{s}.db exists (collapsed with the handle cache; see
Backend). -/
def hasSessionFile (b : Backend) (s : String) : Bool :=
  b.sessionFiles.any (fun p => p.1 == some s)

/-- Keys currently stored in the session DB the given id resolves to. -/
def storedKeys (b : Backend) (sessionID : Option String) : List String :=
  (getSessionDB b sessionID).1.map (fun r => r.key)

/-- The stored keys of session DB sid that LIKE-match t/sid/%. -/
def matchingKeys (b : Backend) (t sid : String) : List String :=
  (storedKeys b (some sid)).filter (likeMatch (t ++ "/" ++ sid ++ "/"))

/-- The session the in-memory map resolves a messageID to, if any. -/
def cacheResolved (b : Backend) (m : String) : Option String :=
  (lookupA b.messageSessionCache (some m)).join

/-- A key segment that is present and nonempty. -/
def segOk (s : Option String) : Bool :=
  match s with
  | some str => !(str == "")
  | none => false

/-- The in-memory map resolves this messageID to a nonempty session id. -/
def partOk (b : Backend) (mo : Option String) : Bool :=
  match mo with
  | some m =>
    match cacheResolved b m with
    | some sid => !(sid == "")
    | none => false
  | none => false

/-- The key shapes the backend supports, per the section-3 data model
(known type, arity 3, no empty segment) and, for parts, the in-process
requirement that the parent message was written first so the in-memory map
resolves a session. -/
def supportedKey (b : Backend) (k : List String) : Bool :=
  (k.length == 3) &&
  ((k.get? 0 == some "session" && segOk (k.get? 1) && segOk (k.get? 2))
    || (k.get? 0 == some "message" && segOk (k.get? 1) && segOk (k.get? 2))
    || (k.get? 0 == some "part" && segOk (k.get? 1) && segOk (k.get? 2)
        && partOk b (k.get? 1)))

end MultiSqliteBackend

namespace JsonBackend

/-- node path.join on already-clean segments: empty segments are skipped. -/
def pathJoin (segs : List String) : String :=
  joinSegs (segs.filter (fun s => !(s == "")))

/-- The single file JsonBackend touches for a key. -/
def jsonTarget (dir : String) (key : List String) : String :=
  pathJoin (dir :: key) ++ ".json"

/-- The files on disk: path to contents. -/
abbrev FileSys := List (String × String)

def lookupFile (fs : FileSys) (p : String) : Option String :=
  (fs.find? (fun q => q.1 == p)).map (fun q => q.2)

/-- JsonBackend.remove (json-backend.ts lines 52-57): fs.unlink(target) with
errors swallowed, wrapped in withErrorHandling which never sees a rejection. -/
def jsonRemove (fs : FileSys) (dir : String) (key : List String) :
    Except JsError Unit × FileSys :=
  let target := jsonTarget dir key
  (Except.ok (), fs.filter (fun q => !(q.1 == target)))

end JsonBackend

/-
  Concrete instances used by counterexamples and witnesses.
-/

namespace SessionRetry

/-- An APIError with responseHeaders undefined. -/
def noHeadersErr : APIError := ⟨none⟩

/-- An error carrying both retry-after-ms: "750" and retry-after: "2". -/
def bothHintsErr : APIError :=
  ⟨some ⟨some ⟨true, some 750, none⟩, some ⟨true, some 2, none⟩⟩⟩

end SessionRetry

namespace MultiSqliteBackend

/-- State after write(["message","sX","mA"], "dm") on a fresh backend. -/
def afterMsgWrite : Backend := (write Backend.init ["message", "sX", "mA"] "dm").2

/-- State after additionally write(["part","mA","p0"], "dp"). -/
def afterMsgPartWrite : Backend := (write afterMsgWrite ["part", "mA", "p0"] "dp").2

end MultiSqliteBackend

/-
  Theorems.
-/

open SessionRetry MultiSqliteBackend JsonBackend

theorem delayRetryAfter_spec (now : ℚ) (ra : Option HdrVal) (attempt : ℕ)
    (h : (match ra with | some v => v.wfb | none => true) = true) :
    delayRetryAfter now ra attempt =
      (match parsedNum ra with
      | some n => ((⌈n * 1000⌉ : ℤ) : ℚ)
      | none =>
        match parsedDate ra with
        | some d => if 0 < d - now then ((⌈d - now⌉ : ℤ) : ℚ) else expBackoff attempt
        | none => expBackoff attempt) := by
  cases ra with
  | none => rfl
  | some v =>
    rcases v with ⟨t, pf, dp⟩
    cases t with
    | true => cases pf <;> cases dp <;> rfl
    | false =>
      simp only [HdrVal.wfb, Bool.false_or, Bool.and_eq_true, beq_iff_eq] at h
      rw [h.1, h.2]
      rfl

/-- C9: delay follows the hint-precedence algorithm — retry-after-ms used
verbatim when it parses, else retry-after seconds times 1000 rounded up, else
a positive HTTP-date difference, else the uncapped exponential when headers
are present, and the exponential capped at 30 000 ms when headers are absent. -/
theorem c9_delay_hint_precedence (now : ℚ) (error : APIError) (attempt : ℕ)
    (h : error.wfb = true) :
    delay now error attempt = delaySpecC9 now error attempt := by
  rcases error with ⟨hs⟩
  cases hs with
  | none => rfl
  | some headers =>
    rcases headers with ⟨ms, ra⟩
    simp only [APIError.wfb, RespHeaders.wfb, Bool.and_eq_true] at h
    have hra := h.2
    cases ms with
    | none =>
      show delayRetryAfter now ra attempt = _
      rw [delayRetryAfter_spec now ra attempt hra]
      rfl
    | some v =>
      rcases v with ⟨t, pf, dp⟩
      cases t with
      | true =>
        cases pf with
        | some n => rfl
        | none =>
          show delayRetryAfter now ra attempt = _
          rw [delayRetryAfter_spec now ra attempt hra]
          rfl
      | false =>
        have h1 := h.1
        simp only [HdrVal.wfb, Bool.false_or, Bool.and_eq_true, beq_iff_eq] at h1
        rw [h1.1]
        show delayRetryAfter now ra attempt = _
        rw [delayRetryAfter_spec now ra attempt hra]
        rfl

/-- C9 witness: with both hints present and parsing, retry-after-ms wins. -/
theorem c9_delay_hint_precedence_witness :
    bothHintsErr.wfb = true ∧ delay 0 bothHintsErr 1 = delaySpecC9 0 bothHintsErr 1 :=
  ⟨by decide, c9_delay_hint_precedence 0 bothHintsErr 1 (by decide)⟩

/-- getRetryDelayInMs returns its base value gated only by the fixed
600 000 ms cap. -/
theorem getRetryDelayInMs_eq_baseDelay (now : ℚ) (error : APIError) (attempt : ℕ) :
    getRetryDelayInMs now error attempt
      = if 600000 < baseDelay now error attempt then none
        else some (baseDelay now error attempt) := by
  rcases error with ⟨hs⟩
  cases hs <;> rfl

/-- C1 amended: getBoundedDelay gives up iff elapsed is at least maxDuration,
or the base value of getRetryDelayInMs (delay() with headers, the uncapped
exponential without) exceeds the fixed 600 000 ms cap — not maxDuration —
or min(base, maxDuration − elapsed) is nonpositive; otherwise it returns
min(base, maxDuration − elapsed). -/
theorem c1_getBoundedDelay_characterization (now : ℚ) (args : BoundedDelayArgs) :
    getBoundedDelay now args =
      if args.maxDuration.getD 600000 ≤ now - args.startTime
          ∨ 600000 < baseDelay now args.error args.attempt
          ∨ min (baseDelay now args.error args.attempt)
              (args.maxDuration.getD 600000 - (now - args.startTime)) ≤ 0
      then none
      else some (min (baseDelay now args.error args.attempt)
          (args.maxDuration.getD 600000 - (now - args.startTime))) := by
  simp only [getBoundedDelay, getRetryDelayInMs_eq_baseDelay]
  by_cases h1 : args.maxDuration.getD 600000 - (now - args.startTime) ≤ 0
  · have hA : args.maxDuration.getD 600000 ≤ now - args.startTime := by linarith
    simp [h1, hA]
  · have hA : ¬ (args.maxDuration.getD 600000 ≤ now - args.startTime) := by
      intro hc
      exact h1 (by linarith)
    by_cases h2 : (600000 : ℚ) < baseDelay now args.error args.attempt
    · simp [h1, h2]
    · by_cases h3 : min (baseDelay now args.error args.attempt)
          (args.maxDuration.getD 600000 - (now - args.startTime)) ≤ 0
      · have h3' : ¬ ((0:ℚ) < min (baseDelay now args.error args.attempt)
            (args.maxDuration.getD 600000 - (now - args.startTime))) := not_lt.mpr h3
        simp [h1, h2, h3, h3']
      · have h4 : (0:ℚ) < min (baseDelay now args.error args.attempt)
            (args.maxDuration.getD 600000 - (now - args.startTime)) := lt_of_not_le h3
        simp [h1, h2, h3, h4, hA]

/-- C1 counterexample: with no headers, attempt 6, no elapsed time and the
default maxDuration, the code returns 64 000 ms (the uncapped exponential,
capped only by the remaining budget) while the claim's formula — built on
the section-4.4 delay, which caps the no-headers exponential at 30 000 ms —
demands 30 000 ms. -/
theorem c1_bounded_spec_counterexample :
    getBoundedDelay 0 ⟨noHeadersErr, 6, 0, none⟩ = some 64000 ∧
    boundedDelaySpecC1 0 noHeadersErr 6 0 none = some 30000 ∧
    getBoundedDelay 0 ⟨noHeadersErr, 6, 0, none⟩
      ≠ boundedDelaySpecC1 0 noHeadersErr 6 0 none := by
  have hexp : expBackoff 6 = 64000 := by
    norm_num [expBackoff, RETRY_INITIAL_DELAY, RETRY_BACKOFF_FACTOR]
  have hbase : baseDelay 0 noHeadersErr 6 = 64000 := by
    simp only [baseDelay, noHeadersErr, hexp]
  have hdel : delay 0 noHeadersErr 6 = 30000 := by
    show min (expBackoff 6) RETRY_MAX_DELAY_NO_HEADERS = 30000
    rw [hexp]
    norm_num [RETRY_MAX_DELAY_NO_HEADERS, min_def]
  have h1 : getBoundedDelay 0 ⟨noHeadersErr, 6, 0, none⟩ = some 64000 := by
    simp only [getBoundedDelay, getRetryDelayInMs_eq_baseDelay, hbase, Option.getD_none]
    norm_num [min_def]
  have h2 : boundedDelaySpecC1 0 noHeadersErr 6 0 none = some 30000 := by
    simp only [boundedDelaySpecC1, hdel, Option.getD_none]
    norm_num [min_def]
  exact ⟨h1, h2, by rw [h1, h2]; simp⟩

/-- C2 amended: with no headers, attempt 10, startTime 599 000 ms before now
and maxDuration 600 000 ms, getBoundedDelay gives up (returns undefined): the
uncapped exponential 2000·2⁹ = 1 024 000 ms exceeds the fixed 600 000 ms cap
inside getRetryDelayInMs, even though 1000 ms of budget remains. -/
theorem c2_bounded_gives_up_at_attempt10 :
    getBoundedDelay 599000 ⟨noHeadersErr, 10, 0, some 600000⟩ = none := by
  have hbv : baseDelay 599000 noHeadersErr 10 = 1024000 := by
    norm_num [baseDelay, noHeadersErr, expBackoff, RETRY_INITIAL_DELAY,
      RETRY_BACKOFF_FACTOR]
  simp only [getBoundedDelay, getRetryDelayInMs_eq_baseDelay, hbv, Option.getD_some]
  norm_num

/-- C2 counterexample: at the claimed input the code does not return a
numeric delay in (0, 1000]; it returns undefined. -/
theorem c2_s5_counterexample :
    ¬ ∃ d : ℚ, getBoundedDelay 599000 ⟨noHeadersErr, 10, 0, some 600000⟩ = some d
        ∧ 0 < d ∧ d ≤ 1000 := by
  rintro ⟨d, hd, -, -⟩
  have hbv : baseDelay 599000 noHeadersErr 10 = 1024000 := by
    norm_num [baseDelay, noHeadersErr, expBackoff, RETRY_INITIAL_DELAY,
      RETRY_BACKOFF_FACTOR]
  have hnone : getBoundedDelay 599000 ⟨noHeadersErr, 10, 0, some 600000⟩ = none := by
    simp only [getBoundedDelay, getRetryDelayInMs_eq_baseDelay, hbv, Option.getD_some]
    norm_num
  rw [hnone] at hd
  exact Option.noConfusion hd

theorem parseKey_message (cache : List (Option String × Option String)) (s m : String) :
    parseKey cache ["message", s, m] = ⟨some "message", some s, some m⟩ := rfl

theorem read_session_eq (b : Backend) (p s : String) :
    read b ["session", p, s] =
      (match b.meta.find? (fun r => sqlEq r.session_id (some s)) with
      | some row => (Except.ok row.data, b)
      | none => (Except.error (JsError.named "NotFoundError"
          ("Resource not found: " ++ joinSegs ["session", p, s])), b)) := rfl

theorem read_message_eq (b : Backend) (s m : String) :
    read b ["message", s, m] =
      (if jsFalsy (some s) then
        (Except.error (JsError.plain "Cannot read message: session unknown"), b)
      else
        match (getSessionDB b (some s)).1.find?
            (fun r => r.key == joinSegs ["message", s, m]) with
        | some row => (Except.ok row.data, (getSessionDB b (some s)).2)
        | none => (Except.error (JsError.named "NotFoundError"
            ("Resource not found: " ++ joinSegs ["message", s, m])),
            (getSessionDB b (some s)).2)) := rfl

theorem read_part_eq (b : Backend) (m p : String) :
    read b ["part", m, p] =
      (if jsFalsy (cacheResolved b m) then
        (Except.error (JsError.plain "Cannot read part: session unknown"), b)
      else
        match (getSessionDB b (cacheResolved b m)).1.find?
            (fun r => r.key == joinSegs ["part", m, p]) with
        | some row => (Except.ok row.data, (getSessionDB b (cacheResolved b m)).2)
        | none => (Except.error (JsError.named "NotFoundError"
            ("Resource not found: " ++ joinSegs ["part", m, p])),
            (getSessionDB b (cacheResolved b m)).2)) := rfl

theorem write_session_eq (b : Backend) (p s d : String) :
    write b ["session", p, s] d =
      (if b.meta.any (fun r => sqlEq r.session_id (some s)) then
        (Except.ok (),
          { b with
            meta := b.meta.map (fun r =>
              if sqlEq r.session_id (some s) then { r with data := d, updated_at := b.clock }
              else r),
            clock := b.clock + 1 })
      else
        (Except.ok (),
          { b with
            meta := b.meta ++ [MetaRow.mk (some s) (some p) d b.clock b.clock],
            clock := b.clock + 1 })) := rfl

theorem write_message_eq (b : Backend) (s m d : String) :
    write b ["message", s, m] d =
      (let b1 := { b with messageSessionCache := setA b.messageSessionCache (some m) (some s) }
      let res := getSessionDB b1 (some s)
      (Except.ok (),
        { res.2 with
          sessionFiles := setA res.2.sessionFiles (some s)
            (upsertRow res.1 (joinSegs ["message", s, m]) "message" d res.2.clock),
          clock := res.2.clock + 1 })) := rfl

theorem write_part_eq (b : Backend) (m p d : String) :
    write b ["part", m, p] d =
      (if jsFalsy (cacheResolved b m) then
        (Except.error (JsError.plain
          ("Cannot write part: session unknown for message " ++ m)), b)
      else
        let res := getSessionDB b (cacheResolved b m)
        (Except.ok (),
          { res.2 with
            sessionFiles := setA res.2.sessionFiles (cacheResolved b m)
              (upsertRow res.1 (joinSegs ["part", m, p]) "part" d res.2.clock),
            clock := res.2.clock + 1 })) := rfl

theorem remove_session_eq (b : Backend) (p s : String) :
    remove b ["session", p, s] =
      (Except.ok (),
        { b with
          meta := b.meta.filter (fun r => !(sqlEq r.session_id (some s))),
          sessionFiles := eraseA b.sessionFiles (some s) }) := rfl

theorem remove_message_eq (b : Backend) (s m : String) :
    remove b ["message", s, m] =
      (if jsFalsy (some s) then
        (Except.error (JsError.plain "Cannot remove message: session unknown"), b)
      else
        (Except.ok (),
          { (getSessionDB b (some s)).2 with
            sessionFiles := setA (getSessionDB b (some s)).2.sessionFiles (some s)
              ((getSessionDB b (some s)).1.filter (fun r =>
                !(r.key == joinSegs ["message", s, m]
                  || likeMatch (joinSegs ["message", s, m] ++ "/") r.key))) })) := rfl

theorem remove_part_eq (b : Backend) (m p : String) :
    remove b ["part", m, p] =
      (if jsFalsy (cacheResolved b m) then
        (Except.error (JsError.plain "Cannot remove part: session unknown"), b)
      else
        (Except.ok (),
          { (getSessionDB b (cacheResolved b m)).2 with
            sessionFiles := setA (getSessionDB b (cacheResolved b m)).2.sessionFiles
              (cacheResolved b m)
              ((getSessionDB b (cacheResolved b m)).1.filter (fun r =>
                !(r.key == joinSegs ["part", m, p]
                  || likeMatch (joinSegs ["part", m, p] ++ "/") r.key))) })) := rfl

theorem list_message_raw_eq (b : Backend) (s : String) :
    list b ["message", s] =
      (((sortStr (if (joinSegs ["message", s] == "") = true
          then (getSessionDB b (some s)).1.map (fun r => r.key)
          else ((getSessionDB b (some s)).1.map (fun r => r.key)).filter
            (likeMatch (joinSegs ["message", s] ++ "/")))).map (fun k => k.splitOn "/")),
        (getSessionDB b (some s)).2) := rfl

theorem list_part_raw_eq (b : Backend) (s : String) :
    list b ["part", s] =
      (((sortStr (if (joinSegs ["part", s] == "") = true
          then (getSessionDB b (some s)).1.map (fun r => r.key)
          else ((getSessionDB b (some s)).1.map (fun r => r.key)).filter
            (likeMatch (joinSegs ["part", s] ++ "/")))).map (fun k => k.splitOn "/")),
        (getSessionDB b (some s)).2) := rfl

theorem list_session_eq (b : Backend) (p : String) :
    list b ["session", p] =
      ((sortMetaDesc (b.meta.filter (fun r => sqlEq r.project_id (some p)))).map
        (fun r => ["session", p, tmpl r.session_id]), b) := rfl

theorem lookupA_map_update {α : Type} (m : List (Option String × α)) (k : Option String)
    (v : α) (h : m.any (fun p => p.1 == k) = true) :
    lookupA (m.map (fun p => if p.1 == k then (k, v) else p)) k = some v := by
  induction m with
  | nil => simp at h
  | cons a t ih =>
    by_cases ha : (a.1 == k) = true
    · simp only [List.map_cons, if_pos ha]
      have hcons : ((k, v) :: t.map (fun p => if p.1 == k then (k, v) else p)).find?
          (fun p => p.1 == k) = some (k, v) :=
        List.find?_cons_of_pos _ (by simp)
      show (((k, v) :: t.map (fun p => if p.1 == k then (k, v) else p)).find?
          (fun p => p.1 == k)).map (fun p => p.2) = some v
      rw [hcons]
      rfl
    · simp only [List.any_cons, Bool.or_eq_true] at h
      have ht := h.resolve_left ha
      simp only [List.map_cons, if_neg ha]
      have hcons : ((a :: t.map (fun p => if p.1 == k then (k, v) else p)).find?
          (fun p => p.1 == k)) = (t.map (fun p => if p.1 == k then (k, v) else p)).find?
          (fun p => p.1 == k) :=
        List.find?_cons_of_neg _ ha
      show ((a :: t.map (fun p => if p.1 == k then (k, v) else p)).find?
          (fun p => p.1 == k)).map (fun p => p.2) = some v
      rw [hcons]
      exact ih ht

theorem lookupA_setA {α : Type} (m : List (Option String × α)) (k : Option String) (v : α) :
    lookupA (setA m k v) k = some v := by
  by_cases h : m.any (fun p => p.1 == k) = true
  · rw [setA, if_pos h]
    exact lookupA_map_update m k v h
  · rw [setA, if_neg h]
    have hnone : m.find? (fun p => p.1 == k) = none :=
      List.find?_eq_none.mpr (fun x hx hpx => h (List.any_eq_true.mpr ⟨x, hx, hpx⟩))
    show ((m ++ [(k, v)]).find? (fun p => p.1 == k)).map (fun p => p.2) = some v
    rw [List.find?_append, hnone]
    simp

theorem lookupA_eraseA {α : Type} (m : List (Option String × α)) (k : Option String) :
    lookupA (eraseA m k) k = none := by
  have hn : (eraseA m k).find? (fun p => p.1 == k) = none := by
    apply List.find?_eq_none.mpr
    intro x hx
    have hm := List.mem_filter.mp hx
    simpa using hm.2
  simp [lookupA, hn]

theorem any_of_lookupA_some {α : Type} (m : List (Option String × α)) (k : Option String)
    (v : α) (h : lookupA m k = some v) : m.any (fun p => p.1 == k) = true := by
  obtain ⟨q, hfind⟩ : ∃ q, m.find? (fun p => p.1 == k) = some q := by
    cases hf : m.find? (fun p => p.1 == k) with
    | none => rw [lookupA, hf] at h; simp at h
    | some q => exact ⟨q, rfl⟩
  have hq := List.find?_some hfind
  exact List.any_eq_true.mpr ⟨q, List.mem_of_find?_eq_some hfind, hq⟩

theorem hasSessionFile_getSessionDB (b : Backend) (s : String) :
    hasSessionFile (getSessionDB b (some s)).2 s = true := by
  unfold getSessionDB
  cases hl : lookupA b.sessionFiles (some s) with
  | some rows => exact any_of_lookupA_some b.sessionFiles (some s) rows hl
  | none =>
    show (b.sessionFiles ++ [(some s, [])]).any (fun p => p.1 == some s) = true
    rw [List.any_append]
    simp

theorem hasSessionFile_setA_self (b : Backend) (s : String) (rows : List StorageRow)
    (meta : List MetaRow) (cache : List (Option String × Option String)) (c : ℕ) :
    hasSessionFile ⟨meta, setA b.sessionFiles (some s) rows, cache, c⟩ s = true :=
  any_of_lookupA_some _ (some s) rows (lookupA_setA b.sessionFiles (some s) rows)

/-- C4 counterexample: on a fresh backend — no write ever happened — a read
of message/s1/m1 fails with NotFoundError yet creates the session DB file
sessions/s1.db, refuting "read and list operations never create a session DB
file for a session that was never written". -/
theorem c4_read_creates_file_counterexample :
    (read Backend.init ["message", "s1", "m1"]).1
        = Except.error (JsError.named "NotFoundError" "Resource not found: message/s1/m1")
    ∧ hasSessionFile Backend.init "s1" = false
    ∧ hasSessionFile (read Backend.init ["message", "s1", "m1"]).2 "s1" = true :=
  ⟨by decide, by decide, by decide⟩

/-- C4 amended: a session DB file exists iff some operation that resolved
that session's DB ran since the last removal of the session — not only
writes.  In particular every read of a message key (with a nonempty session
segment) and every list of a message prefix creates, or keeps, the file
sessions/{s}.db, written or not. -/
theorem c4_read_list_create_session_file (b : Backend) (s m : String) (h : s ≠ "") :
    hasSessionFile (read b ["message", s, m]).2 s = true
    ∧ hasSessionFile (list b ["message", s]).2 s = true := by
  have hfalsy : jsFalsy (some s) = false := by simp [jsFalsy, h]
  constructor
  · rw [read_message_eq, if_neg (by rw [hfalsy]; simp)]
    cases hf : (getSessionDB b (some s)).1.find?
        (fun r => r.key == joinSegs ["message", s, m]) with
    | some row => exact hasSessionFile_getSessionDB b s
    | none => exact hasSessionFile_getSessionDB b s
  · rw [list_message_raw_eq]
    exact hasSessionFile_getSessionDB b s

/-- C4 witness at s = "s1", m = "m1" on the fresh backend. -/
theorem c4_read_list_create_session_file_witness :
    ("s1" : String) ≠ ""
      ∧ (hasSessionFile (read Backend.init ["message", "s1", "m1"]).2 "s1" = true
        ∧ hasSessionFile (list Backend.init ["message", "s1"]).2 "s1" = true) :=
  ⟨by decide, c4_read_list_create_session_file Backend.init "s1" "m1" (by decide)⟩

/-- C5 counterexample: write(["session_diff","s1"], v) does not succeed and
does not reach the metadata DB: it throws the plain Error "Unknown key type:
session_diff" and leaves the state unchanged. -/
theorem c5_session_diff_write_counterexample :
    (write Backend.init ["session_diff", "s1"] "v").1
        = Except.error (JsError.plain "Unknown key type: session_diff")
    ∧ (write Backend.init ["session_diff", "s1"] "v").2 = Backend.init :=
  ⟨by decide, by decide⟩

/-- C5 amended: for every state, sessionID and value, a session_diff write
falls off the end of the write switch — it does not fall through to the
metadata DB — and fails with the plain Error "Unknown key type:
session_diff", storing nothing; a subsequent read fails the same way rather
than returning a value. -/
theorem c5_session_diff_unknown_key (b : Backend) (s d : String) :
    write b ["session_diff", s] d
      = (Except.error (JsError.plain "Unknown key type: session_diff"), b)
    ∧ read b ["session_diff", s]
      = (Except.error (JsError.plain "Unknown key type: session_diff"), b) :=
  ⟨rfl, rfl⟩

/-- C6 counterexample: a part write whose messageID has no entry in the
in-memory map fails with an untagged plain Error — not with a tagged
SessionUnknown error (the backend defines no such tagged error). -/
theorem c6_untagged_error_counterexample :
    (write Backend.init ["part", "mA", "p0"] "v").1
        = Except.error (JsError.plain "Cannot write part: session unknown for message mA")
    ∧ ∀ msg : String, (write Backend.init ["part", "mA", "p0"] "v").1
        ≠ Except.error (JsError.named "SessionUnknown" msg) := by
  have h : (write Backend.init ["part", "mA", "p0"] "v").1
      = Except.error (JsError.plain "Cannot write part: session unknown for message mA") := by
    decide
  refine ⟨h, fun msg hc => ?_⟩
  rw [h] at hc
  simp at hc

/-- C6 amended: when the in-memory messageID → sessionID map has no entry
for the messageID, the part operations read, write and remove all fail — but
with untagged plain Errors whose message says "session unknown", not with a
tagged SessionUnknown error. -/
theorem c6_part_unknown_session_errors (b : Backend) (m p d : String)
    (h : cacheResolved b m = none) :
    (write b ["part", m, p] d).1
        = Except.error (JsError.plain ("Cannot write part: session unknown for message " ++ m))
    ∧ (read b ["part", m, p]).1
        = Except.error (JsError.plain "Cannot read part: session unknown")
    ∧ (remove b ["part", m, p]).1
        = Except.error (JsError.plain "Cannot remove part: session unknown") := by
  have hf : jsFalsy (cacheResolved b m) = true := by rw [h]; rfl
  refine ⟨?_, ?_, ?_⟩
  · rw [write_part_eq, if_pos hf]
  · rw [read_part_eq, if_pos hf]
  · rw [remove_part_eq, if_pos hf]

/-- C6 witness on the fresh backend, messageID "mA". -/
theorem c6_part_unknown_session_errors_witness :
    cacheResolved Backend.init "mA" = none
      ∧ ((write Backend.init ["part", "mA", "p0"] "v").1
          = Except.error (JsError.plain ("Cannot write part: session unknown for message " ++ "mA"))
        ∧ (read Backend.init ["part", "mA", "p0"]).1
          = Except.error (JsError.plain "Cannot read part: session unknown")
        ∧ (remove Backend.init ["part", "mA", "p0"]).1
          = Except.error (JsError.plain "Cannot remove part: session unknown")) :=
  ⟨by decide, c6_part_unknown_session_errors Backend.init "mA" "p0" "v" (by decide)⟩

theorem string_len_zero (s : String) (h : s.length = 0) : s = "" := by
  cases s with
  | mk data =>
    cases data with
    | nil => rfl
    | cons a l => simp [String.length] at h

theorem joinSegs_append_singleton (l : List String) (c : String) (h : l ≠ []) :
    joinSegs (l ++ [c]) = joinSegs l ++ "/" ++ c := by
  induction l with
  | nil => simp at h
  | cons a t ih =>
    cases t with
    | nil => rfl
    | cons b t' =>
      have ihh := ih (by simp)
      simp only [List.cons_append] at ihh ⊢
      show a ++ "/" ++ joinSegs (b :: (t' ++ [c]))
          = (a ++ "/" ++ joinSegs (b :: t')) ++ "/" ++ c
      rw [ihh]
      simp [String.append_assoc]

theorem joinTwo_ne_empty (a c : String) : joinSegs [a, c] ≠ "" := by
  intro hc
  have h1 : (a ++ "/" ++ c).length = ("" : String).length := by
    rw [show a ++ "/" ++ c = joinSegs [a, c] from rfl, hc]
  rw [String.length_append, String.length_append] at h1
  have h2 : ("/" : String).length = 1 := rfl
  have h0 : ("" : String).length = 0 := rfl
  rw [h2, h0] at h1
  omega

theorem joinTwo_beq_empty (a c : String) : (joinSegs [a, c] == "") = false :=
  beq_eq_false_iff_ne.mpr (joinTwo_ne_empty a c)

/-- C3 counterexample: after write(["message","sX","mA"],_) and
write(["part","mA","p0"],_) in the same process, list(["part","mA"])
resolves the session DB from the second segment — the messageID — and so
returns [], not [["part","mA","p0"]]. -/
theorem c3_list_part_counterexample :
    (list afterMsgPartWrite ["part", "mA"]).1 = []
    ∧ (list afterMsgPartWrite ["part", "mA"]).1 ≠ [["part", "mA", "p0"]] :=
  ⟨by decide, by decide⟩

/-- C3 amended: list resolves message and part prefixes by treating the
second segment as a session id: it opens (creating if absent)
sessions/{prefix[1]}.db and returns exactly the keys stored there that
LIKE-match prefix + "/%", split on "/", ordered by key (stated below as: the
returned keys are a permutation of the matching stored keys, sorted
ascending).  Session prefixes return the sessions of the given project
ordered by updated_at descending.  Since a part key lives in the DB of its
parent message's session, list(["part", m]) does not return the parts of
message m unless m coincides with a session id. -/
theorem c3_list_characterization (b : Backend) (sid pid : String) :
    ((list b ["message", sid]).1
        = (sortStr (matchingKeys b "message" sid)).map (fun k => k.splitOn "/")
      ∧ List.Sorted (· ≤ ·) (sortStr (matchingKeys b "message" sid))
      ∧ (sortStr (matchingKeys b "message" sid)).Perm (matchingKeys b "message" sid))
    ∧ ((list b ["part", sid]).1
        = (sortStr (matchingKeys b "part" sid)).map (fun k => k.splitOn "/")
      ∧ List.Sorted (· ≤ ·) (sortStr (matchingKeys b "part" sid))
      ∧ (sortStr (matchingKeys b "part" sid)).Perm (matchingKeys b "part" sid))
    ∧ ((list b ["session", pid]).1
        = (sortMetaDesc (b.meta.filter (fun r => sqlEq r.project_id (some pid)))).map
            (fun r => ["session", pid, tmpl r.session_id])
      ∧ List.Sorted descUpdated
          (sortMetaDesc (b.meta.filter (fun r => sqlEq r.project_id (some pid))))
      ∧ (sortMetaDesc (b.meta.filter (fun r => sqlEq r.project_id (some pid)))).Perm
          (b.meta.filter (fun r => sqlEq r.project_id (some pid)))) := by
  refine ⟨⟨?_, ?_, ?_⟩, ⟨?_, ?_, ?_⟩, ⟨?_, ?_, ?_⟩⟩
  · rw [list_message_raw_eq]
    simp only [joinTwo_beq_empty, Bool.false_eq_true, if_false, matchingKeys, storedKeys]
    rfl
  · exact List.sorted_insertionSort _ _
  · exact List.perm_insertionSort _ _
  · rw [list_part_raw_eq]
    simp only [joinTwo_beq_empty, Bool.false_eq_true, if_false, matchingKeys, storedKeys]
    rfl
  · exact List.sorted_insertionSort _ _
  · exact List.perm_insertionSort _ _
  · rw [list_session_eq]
  · exact List.sorted_insertionSort _ _
  · exact List.perm_insertionSort _ _

theorem lookupFile_filter_ne (fs : FileSys) (t p : String) (h : p ≠ t) :
    lookupFile (fs.filter (fun q => !(q.1 == t))) p = lookupFile fs p := by
  induction fs with
  | nil => rfl
  | cons a l ih =>
    rw [List.filter_cons]
    by_cases hat : (!(a.1 == t)) = true
    · rw [if_pos hat]
      by_cases hap : (a.1 == p) = true
      · have h1 : (a :: l.filter (fun q => !(q.1 == t))).find? (fun q => q.1 == p)
            = some a := List.find?_cons_of_pos _ hap
        have h2 : (a :: l).find? (fun q => q.1 == p) = some a :=
          List.find?_cons_of_pos _ hap
        show ((a :: l.filter (fun q => !(q.1 == t))).find? (fun q => q.1 == p)).map
            (fun q => q.2) = ((a :: l).find? (fun q => q.1 == p)).map (fun q => q.2)
        rw [h1, h2]
      · have h1 : (a :: l.filter (fun q => !(q.1 == t))).find? (fun q => q.1 == p)
            = (l.filter (fun q => !(q.1 == t))).find? (fun q => q.1 == p) :=
          List.find?_cons_of_neg _ hap
        have h2 : (a :: l).find? (fun q => q.1 == p) = l.find? (fun q => q.1 == p) :=
          List.find?_cons_of_neg _ hap
        show ((a :: l.filter (fun q => !(q.1 == t))).find? (fun q => q.1 == p)).map
            (fun q => q.2) = ((a :: l).find? (fun q => q.1 == p)).map (fun q => q.2)
        rw [h1, h2]
        exact ih
    · rw [if_neg hat]
      have hat' : (a.1 == t) = true := by
        cases hb : (a.1 == t) with
        | true => rfl
        | false =>
          rw [hb] at hat
          exact absurd rfl hat
      have hap : (a.1 == p) = false := by
        have ht : a.1 = t := beq_iff_eq.mp hat' 
        rw [ht]
        exact beq_eq_false_iff_ne.mpr (fun hc => h hc.symm)
      have h2 : (a :: l).find? (fun q => q.1 == p) = l.find? (fun q => q.1 == p) :=
        List.find?_cons_of_neg _ (by rw [hap]; simp)
      show ((l.filter (fun q => !(q.1 == t))).find? (fun q => q.1 == p)).map (fun q => q.2)
          = ((a :: l).find? (fun q => q.1 == p)).map (fun q => q.2)
      rw [h2]
      exact ih

theorem jsonTarget_child_ne (dir : String) (k : List String) (c : String) (h : c ≠ "") :
    jsonTarget dir (k ++ [c]) ≠ jsonTarget dir k := by
  intro hc
  have hlen := congrArg String.length hc
  unfold jsonTarget pathJoin at hlen
  have hsplit : (dir :: (k ++ [c])).filter (fun s => !(s == ""))
      = (dir :: k).filter (fun s => !(s == "")) ++ [c] := by
    rw [show dir :: (k ++ [c]) = (dir :: k) ++ [c] from rfl, List.filter_append]
    congr 1
    simp [List.filter_cons, h]
  rw [hsplit] at hlen
  cases hfl : (dir :: k).filter (fun s => !(s == "")) with
  | nil =>
    rw [hfl] at hlen
    simp only [List.nil_append] at hlen
    rw [show joinSegs [c] = c from rfl,
      show joinSegs ([] : List String) = "" from rfl] at hlen
    simp only [String.length_append] at hlen
    have h0 : ("" : String).length = 0 := rfl
    rw [h0] at hlen
    have hcz : c.length = 0 := by omega
    exact h (string_len_zero c hcz)
  | cons a t =>
    rw [hfl] at hlen
    rw [joinSegs_append_singleton (a :: t) c (by simp)] at hlen
    simp only [String.length_append] at hlen
    have h1 : ("/" : String).length = 1 := rfl
    rw [h1] at hlen
    omega

/-- C10: JsonBackend.remove unlinks exactly the single file
{dir}/{key segments joined}.json, resolves successfully even when that file
is absent, and leaves every other path — in particular every child key's
file, whose target path is distinct — untouched: the legacy backend's remove
never cascades to children. -/
theorem c10_json_remove_frame (fs : FileSys) (dir : String) (k : List String) :
    (jsonRemove fs dir k).1 = Except.ok ()
    ∧ (jsonRemove fs dir k).2 = fs.filter (fun q => !(q.1 == jsonTarget dir k))
    ∧ (∀ p : String, p ≠ jsonTarget dir k →
        lookupFile (jsonRemove fs dir k).2 p = lookupFile fs p)
    ∧ (∀ c : String, c ≠ "" → jsonTarget dir (k ++ [c]) ≠ jsonTarget dir k) :=
  ⟨rfl, rfl, fun p hp => lookupFile_filter_ne fs (jsonTarget dir k) p hp,
    fun c hcne => jsonTarget_child_ne dir k c hcne⟩

/-- C10 witness: removing ["a"] from an empty tree under dir "d" resolves,
leaves the unrelated path "other" unchanged, and the child key ["a","b"]
targets a different file than ["a"]. -/
theorem c10_json_remove_frame_witness :
    (("other" : String) ≠ jsonTarget "d" ["a"]
        ∧ lookupFile (jsonRemove [] "d" ["a"]).2 "other" = lookupFile [] "other")
    ∧ (("b" : String) ≠ ""
        ∧ jsonTarget "d" (["a"] ++ ["b"]) ≠ jsonTarget "d" ["a"]) :=
  ⟨⟨by decide, (c10_json_remove_frame [] "d" ["a"]).2.2.1 "other" (by decide)⟩,
    ⟨by decide, (c10_json_remove_frame [] "d" ["a"]).2.2.2 "b" (by decide)⟩⟩

theorem getSessionDB_of_lookup (b : Backend) (sid : Option String)
    (rows : List StorageRow) (h : lookupA b.sessionFiles sid = some rows) :
    getSessionDB b sid = (rows, b) := by
  unfold getSessionDB
  rw [h]

theorem find?_row_update (rows : List StorageRow) (keyStr d : String) (c : ℕ)
    (h : rows.any (fun r => r.key == keyStr) = true) :
    ∃ r, (rows.map (fun x => if x.key == keyStr
          then { x with data := d, updated_at := c } else x)).find?
        (fun x => x.key == keyStr) = some r ∧ r.data = d := by
  induction rows with
  | nil => simp at h
  | cons a t ih =>
    by_cases ha : (a.key == keyStr) = true
    · refine ⟨{ a with data := d, updated_at := c }, ?_, rfl⟩
      simp only [List.map_cons, if_pos ha]
      exact List.find?_cons_of_pos _ ha
    · simp only [List.any_cons, Bool.or_eq_true] at h
      obtain ⟨r, hr, hd⟩ := ih (h.resolve_left ha)
      refine ⟨r, ?_, hd⟩
      simp only [List.map_cons, if_neg ha]
      have hcons : (a :: t.map (fun x => if x.key == keyStr
            then { x with data := d, updated_at := c } else x)).find?
          (fun x => x.key == keyStr)
          = (t.map (fun x => if x.key == keyStr
            then { x with data := d, updated_at := c } else x)).find?
          (fun x => x.key == keyStr) :=
        List.find?_cons_of_neg _ ha
      rw [hcons]
      exact hr

theorem find?_upsertRow (rows : List StorageRow) (keyStr ty d : String) (c : ℕ) :
    ∃ r, (upsertRow rows keyStr ty d c).find? (fun x => x.key == keyStr) = some r
      ∧ r.data = d := by
  by_cases h : rows.any (fun r => r.key == keyStr) = true
  · rw [upsertRow, if_pos h]
    exact find?_row_update rows keyStr d c h
  · rw [upsertRow, if_neg h]
    have hnone : rows.find? (fun r => r.key == keyStr) = none :=
      List.find?_eq_none.mpr (fun x hx hpx => h (List.any_eq_true.mpr ⟨x, hx, hpx⟩))
    refine ⟨⟨keyStr, ty, d, c, c⟩, ?_, rfl⟩
    rw [List.find?_append, hnone, Option.none_or]
    exact List.find?_cons_of_pos _ (by simp)

theorem find?_meta_update (l : List MetaRow) (s d : String) (c : ℕ)
    (h : l.any (fun r => sqlEq r.session_id (some s)) = true) :
    ∃ r, (l.map (fun x => if sqlEq x.session_id (some s)
          then { x with data := d, updated_at := c } else x)).find?
        (fun x => sqlEq x.session_id (some s)) = some r ∧ r.data = d := by
  induction l with
  | nil => simp at h
  | cons a t ih =>
    by_cases ha : sqlEq a.session_id (some s) = true
    · refine ⟨{ a with data := d, updated_at := c }, ?_, rfl⟩
      simp only [List.map_cons, if_pos ha]
      exact List.find?_cons_of_pos _ ha
    · simp only [List.any_cons, Bool.or_eq_true] at h
      obtain ⟨r, hr, hd⟩ := ih (h.resolve_left ha)
      refine ⟨r, ?_, hd⟩
      simp only [List.map_cons, if_neg ha]
      have hcons : (a :: t.map (fun x => if sqlEq x.session_id (some s)
            then { x with data := d, updated_at := c } else x)).find?
          (fun x => sqlEq x.session_id (some s))
          = (t.map (fun x => if sqlEq x.session_id (some s)
            then { x with data := d, updated_at := c } else x)).find?
          (fun x => sqlEq x.session_id (some s)) :=
        List.find?_cons_of_neg _ ha
      rw [hcons]
      exact hr

theorem find?_filter_remove_none (rows : List StorageRow) (keyStr : String) :
    (rows.filter (fun r => !(r.key == keyStr || likeMatch (keyStr ++ "/") r.key))).find?
      (fun r => r.key == keyStr) = none := by
  apply List.find?_eq_none.mpr
  intro x hx hpx
  have hm := (List.mem_filter.mp hx).2
  rw [hpx] at hm
  simp at hm

theorem find?_meta_filter_none (l : List MetaRow) (sid : Option String) :
    (l.filter (fun r => !(sqlEq r.session_id sid))).find? (fun r => sqlEq r.session_id sid)
      = none := by
  apply List.find?_eq_none.mpr
  intro x hx hpx
  have hm := (List.mem_filter.mp hx).2
  rw [hpx] at hm
  simp at hm

theorem getSessionDB_cache (b : Backend) (sid : Option String) :
    (getSessionDB b sid).2.messageSessionCache = b.messageSessionCache := by
  unfold getSessionDB
  cases lookupA b.sessionFiles sid <;> rfl

theorem getSessionDB_of_lookup_none (b : Backend) (sid : Option String)
    (h : lookupA b.sessionFiles sid = none) :
    getSessionDB b sid = ([], { b with sessionFiles := b.sessionFiles ++ [(sid, [])] }) := by
  unfold getSessionDB
  rw [h]

theorem roundtrip_session (b : Backend) (p s d : String) :
    (read (write b ["session", p, s] d).2 ["session", p, s]).1 = Except.ok d := by
  rw [write_session_eq]
  by_cases h : b.meta.any (fun r => sqlEq r.session_id (some s)) = true
  · rw [if_pos h]
    dsimp only
    rw [read_session_eq]
    dsimp only
    obtain ⟨r, hfind, hdata⟩ := find?_meta_update b.meta s d b.clock h
    rw [hfind]
    dsimp only
    rw [hdata]
  · rw [if_neg h]
    dsimp only
    rw [read_session_eq]
    dsimp only
    have hnone : b.meta.find? (fun r => sqlEq r.session_id (some s)) = none :=
      List.find?_eq_none.mpr (fun x hx hpx => h (List.any_eq_true.mpr ⟨x, hx, hpx⟩))
    have hone : ([MetaRow.mk (some s) (some p) d b.clock b.clock] : List MetaRow).find?
        (fun r => sqlEq r.session_id (some s))
        = some (MetaRow.mk (some s) (some p) d b.clock b.clock) :=
      List.find?_cons_of_pos _ (by simp [sqlEq])
    rw [List.find?_append, hnone, Option.none_or, hone]

theorem roundtrip_message (b : Backend) (s m d : String) (hs : s ≠ "") :
    (read (write b ["message", s, m] d).2 ["message", s, m]).1 = Except.ok d := by
  have hfalsy : ¬ (jsFalsy (some s) = true) := by simp [jsFalsy, hs]
  rw [write_message_eq]
  dsimp only
  generalize hres : getSessionDB
      { b with messageSessionCache := setA b.messageSessionCache (some m) (some s) }
      (some s) = res
  obtain ⟨rows1, b1⟩ := res
  dsimp only
  rw [read_message_eq, if_neg hfalsy]
  have hlook : lookupA (Backend.mk b1.meta
      (setA b1.sessionFiles (some s)
        (upsertRow rows1 (joinSegs ["message", s, m]) "message" d b1.clock))
      b1.messageSessionCache (b1.clock + 1)).sessionFiles (some s)
      = some (upsertRow rows1 (joinSegs ["message", s, m]) "message" d b1.clock) :=
    lookupA_setA b1.sessionFiles (some s) _
  rw [getSessionDB_of_lookup _ _ _ hlook]
  dsimp only
  obtain ⟨r, hr, hd⟩ := find?_upsertRow rows1 (joinSegs ["message", s, m]) "message" d b1.clock
  rw [hr]
  dsimp only
  rw [hd]

theorem roundtrip_part (b : Backend) (m q d sid : String)
    (hc : cacheResolved b m = some sid) (hsid : sid ≠ "") :
    (read (write b ["part", m, q] d).2 ["part", m, q]).1 = Except.ok d := by
  have hfalsy : ¬ (jsFalsy (cacheResolved b m) = true) := by
    rw [hc]
    simp [jsFalsy, hsid]
  have hfalsy2 : ¬ (jsFalsy (some sid) = true) := by simp [jsFalsy, hsid]
  rw [write_part_eq, if_neg hfalsy]
  dsimp only
  rw [hc]
  generalize hres : getSessionDB b (some sid) = res
  obtain ⟨rows1, b1⟩ := res
  dsimp only
  have hcacheb1 : b1.messageSessionCache = b.messageSessionCache := by
    have h2 := congrArg (fun x => x.2.messageSessionCache) hres
    dsimp only at h2
    rw [getSessionDB_cache] at h2
    exact h2.symm
  rw [read_part_eq]
  have hcache : cacheResolved (Backend.mk b1.meta
      (setA b1.sessionFiles (some sid)
        (upsertRow rows1 (joinSegs ["part", m, q]) "part" d b1.clock))
      b1.messageSessionCache (b1.clock + 1)) m = some sid := by
    show (lookupA b1.messageSessionCache (some m)).join = some sid
    rw [hcacheb1]
    exact hc
  rw [hcache, if_neg hfalsy2]
  have hlook : lookupA (Backend.mk b1.meta
      (setA b1.sessionFiles (some sid)
        (upsertRow rows1 (joinSegs ["part", m, q]) "part" d b1.clock))
      b1.messageSessionCache (b1.clock + 1)).sessionFiles (some sid)
      = some (upsertRow rows1 (joinSegs ["part", m, q]) "part" d b1.clock) :=
    lookupA_setA b1.sessionFiles (some sid) _
  rw [getSessionDB_of_lookup _ _ _ hlook]
  dsimp only
  obtain ⟨r, hr, hd⟩ := find?_upsertRow rows1 (joinSegs ["part", m, q]) "part" d b1.clock
  rw [hr]
  dsimp only
  rw [hd]

theorem segOk_ne (s : String) (h : segOk (some s) = true) : s ≠ "" := by
  intro hc
  subst hc
  simp [segOk] at h

theorem partOk_resolved (b : Backend) (m : String) (h : partOk b (some m) = true) :
    ∃ sid, cacheResolved b m = some sid ∧ sid ≠ "" := by
  have h' : (match cacheResolved b m with
      | some sid => !(sid == "")
      | none => false) = true := h
  cases hc : cacheResolved b m with
  | none => rw [hc] at h'; simp at h'
  | some sid =>
    rw [hc] at h'
    refine ⟨sid, rfl, ?_⟩
    intro hce
    subst hce
    simp at h'

theorem supportedKey_cases (b : Backend) (k : List String) (h : supportedKey b k = true) :
    ∃ x y : String, (k = ["session", x, y] ∧ x ≠ "" ∧ y ≠ "")
      ∨ (k = ["message", x, y] ∧ x ≠ "" ∧ y ≠ "")
      ∨ (k = ["part", x, y] ∧ x ≠ "" ∧ y ≠ ""
          ∧ ∃ sid, cacheResolved b x = some sid ∧ sid ≠ "") := by
  rw [supportedKey, Bool.and_eq_true] at h
  obtain ⟨hlen, hsh⟩ := h
  have hlen3 : k.length = 3 := by simpa using hlen
  obtain ⟨a, x, y, rfl⟩ := List.length_eq_three.mp hlen3
  simp only [List.get?, Bool.or_eq_true, Bool.and_eq_true] at hsh
  refine ⟨x, y, ?_⟩
  rcases hsh with (⟨⟨h1, h2⟩, h3⟩ | ⟨⟨h1, h2⟩, h3⟩) | ⟨⟨⟨h1, h2⟩, h3⟩, h4⟩
  · have ha : a = "session" := by simpa using h1
    exact Or.inl ⟨by rw [ha], segOk_ne x h2, segOk_ne y h3⟩
  · have ha : a = "message" := by simpa using h1
    exact Or.inr (Or.inl ⟨by rw [ha], segOk_ne x h2, segOk_ne y h3⟩)
  · have ha : a = "part" := by simpa using h1
    exact Or.inr (Or.inr ⟨by rw [ha], segOk_ne x h2, segOk_ne y h3, partOk_resolved b x h4⟩)

theorem write_part_cache (b : Backend) (m q d : String)
    (h : ¬ (jsFalsy (cacheResolved b m) = true)) :
    (write b ["part", m, q] d).2.messageSessionCache = b.messageSessionCache := by
  rw [write_part_eq, if_neg h]
  dsimp only
  rw [getSessionDB_cache]

theorem rmr_session (b : Backend) (p s : String) :
    (read (remove b ["session", p, s]).2 ["session", p, s]).1
      = Except.error (JsError.named "NotFoundError"
          ("Resource not found: " ++ joinSegs ["session", p, s])) := by
  rw [remove_session_eq]
  dsimp only
  rw [read_session_eq]
  dsimp only
  rw [find?_meta_filter_none]

theorem rmr_message (b : Backend) (s m : String) (hs : s ≠ "") :
    (read (remove b ["message", s, m]).2 ["message", s, m]).1
      = Except.error (JsError.named "NotFoundError"
          ("Resource not found: " ++ joinSegs ["message", s, m])) := by
  have hfalsy : ¬ (jsFalsy (some s) = true) := by simp [jsFalsy, hs]
  rw [remove_message_eq, if_neg hfalsy]
  dsimp only
  generalize hres : getSessionDB b (some s) = res
  obtain ⟨rows1, b1⟩ := res
  dsimp only
  rw [read_message_eq, if_neg hfalsy]
  have hlook : lookupA (Backend.mk b1.meta
      (setA b1.sessionFiles (some s)
        (rows1.filter (fun r => !(r.key == joinSegs ["message", s, m]
          || likeMatch (joinSegs ["message", s, m] ++ "/") r.key))))
      b1.messageSessionCache b1.clock).sessionFiles (some s)
      = some (rows1.filter (fun r => !(r.key == joinSegs ["message", s, m]
          || likeMatch (joinSegs ["message", s, m] ++ "/") r.key))) :=
    lookupA_setA b1.sessionFiles (some s) _
  rw [getSessionDB_of_lookup _ _ _ hlook]
  dsimp only
  rw [find?_filter_remove_none]

theorem rmr_part (b : Backend) (m q sid : String) (hc : cacheResolved b m = some sid)
    (hsid : sid ≠ "") :
    (read (remove b ["part", m, q]).2 ["part", m, q]).1
      = Except.error (JsError.named "NotFoundError"
          ("Resource not found: " ++ joinSegs ["part", m, q])) := by
  have hfalsy : ¬ (jsFalsy (cacheResolved b m) = true) := by
    rw [hc]
    simp [jsFalsy, hsid]
  have hfalsy2 : ¬ (jsFalsy (some sid) = true) := by simp [jsFalsy, hsid]
  rw [remove_part_eq, if_neg hfalsy]
  dsimp only
  rw [hc]
  generalize hres : getSessionDB b (some sid) = res
  obtain ⟨rows1, b1⟩ := res
  dsimp only
  have hcacheb1 : b1.messageSessionCache = b.messageSessionCache := by
    have h2 := congrArg (fun x => x.2.messageSessionCache) hres
    dsimp only at h2
    rw [getSessionDB_cache] at h2
    exact h2.symm
  rw [read_part_eq]
  have hcache : cacheResolved (Backend.mk b1.meta
      (setA b1.sessionFiles (some sid)
        (rows1.filter (fun r => !(r.key == joinSegs ["part", m, q]
          || likeMatch (joinSegs ["part", m, q] ++ "/") r.key))))
      b1.messageSessionCache b1.clock) m = some sid := by
    show (lookupA b1.messageSessionCache (some m)).join = some sid
    rw [hcacheb1]
    exact hc
  rw [hcache, if_neg hfalsy2]
  have hlook : lookupA (Backend.mk b1.meta
      (setA b1.sessionFiles (some sid)
        (rows1.filter (fun r => !(r.key == joinSegs ["part", m, q]
          || likeMatch (joinSegs ["part", m, q] ++ "/") r.key))))
      b1.messageSessionCache b1.clock).sessionFiles (some sid)
      = some (rows1.filter (fun r => !(r.key == joinSegs ["part", m, q]
          || likeMatch (joinSegs ["part", m, q] ++ "/") r.key))) :=
    lookupA_setA b1.sessionFiles (some sid) _
  rw [getSessionDB_of_lookup _ _ _ hlook]
  dsimp only
  rw [find?_filter_remove_none]

theorem cascade_message (b : Backend) (s m p d : String) (hs : s ≠ "") :
    (read (remove (write b ["message", s, m] d).2 ["session", p, s]).2 ["message", s, m]).1
      = Except.error (JsError.named "NotFoundError"
          ("Resource not found: " ++ joinSegs ["message", s, m])) := by
  have hfalsy : ¬ (jsFalsy (some s) = true) := by simp [jsFalsy, hs]
  generalize (write b ["message", s, m] d).2 = B1
  rw [remove_session_eq]
  dsimp only
  rw [read_message_eq, if_neg hfalsy]
  have hlook : lookupA (Backend.mk
      (B1.meta.filter (fun r => !(sqlEq r.session_id (some s))))
      (eraseA B1.sessionFiles (some s)) B1.messageSessionCache B1.clock).sessionFiles
      (some s) = none := lookupA_eraseA B1.sessionFiles (some s)
  rw [getSessionDB_of_lookup_none _ _ hlook]
  dsimp only
  rfl

/-- C7: for every supported key — session, message or part keys of arity 3
with nonempty segments, a part key additionally requiring that its parent
message was written earlier in the same process so the in-memory map
resolves a session — write(k, v) followed by read(k) returns exactly the
written serialized value, from any starting state. -/
theorem c7_write_read_roundtrip (b : Backend) (k : List String) (d : String)
    (h : supportedKey b k = true) :
    (read (write b k d).2 k).1 = Except.ok d := by
  obtain ⟨x, y, hcase⟩ := supportedKey_cases b k h
  rcases hcase with ⟨rfl, hx, hy⟩ | ⟨rfl, hx, hy⟩ | ⟨rfl, hx, hy, sid, hc, hsid⟩
  · exact roundtrip_session b x y d
  · exact roundtrip_message b x y d hx
  · exact roundtrip_part b x y d sid hc hsid

/-- C7 witness — the S7 scenario: after write(["message","sX","mA"],_),
write(["part","mA","p0"],"v") followed by read(["part","mA","p0"]) returns
"v", and the part row went to session sX's DB file. -/
theorem c7_write_read_roundtrip_witness :
    supportedKey afterMsgWrite ["part", "mA", "p0"] = true
    ∧ (read (write afterMsgWrite ["part", "mA", "p0"] "v").2 ["part", "mA", "p0"]).1
        = Except.ok "v"
    ∧ hasSessionFile (write afterMsgWrite ["part", "mA", "p0"] "v").2 "sX" = true :=
  ⟨by decide, c7_write_read_roundtrip afterMsgWrite ["part", "mA", "p0"] "v" (by decide),
    by decide⟩

/-- C8 counterexample: for k = ["session_diff","s1"] the sequence
write(k,v); remove(k); read(k) does not fail with NotFound — the write
itself throws, and the final read fails with the plain Error "Unknown key
type: session_diff", not with the tagged NotFoundError. -/
theorem c8_session_diff_counterexample :
    (read (remove (write Backend.init ["session_diff", "s1"] "v").2
        ["session_diff", "s1"]).2 ["session_diff", "s1"]).1
      = Except.error (JsError.plain "Unknown key type: session_diff")
    ∧ ∀ msg : String, (read (remove (write Backend.init ["session_diff", "s1"] "v").2
        ["session_diff", "s1"]).2 ["session_diff", "s1"]).1
      ≠ Except.error (JsError.named "NotFoundError" msg) := by
  have h : (read (remove (write Backend.init ["session_diff", "s1"] "v").2
      ["session_diff", "s1"]).2 ["session_diff", "s1"]).1
      = Except.error (JsError.plain "Unknown key type: session_diff") := by decide
  refine ⟨h, fun msg hc => ?_⟩
  rw [h] at hc
  simp at hc

/-- C8 amended: restricted to the supported key shapes (session/message/part
with nonempty segments, parts resolvable through the in-memory map),
write(k,v); remove(k); read(k) fails with the tagged NotFoundError; and
removing session/{p}/{s} cascades by unlinking the session DB file, so a
subsequent read of a previously written message/{s}/{m} fails with
NotFoundError. -/
theorem c8_remove_notfound_and_cascade :
    (∀ (b : Backend) (k : List String) (d : String), supportedKey b k = true →
      (read (remove (write b k d).2 k).2 k).1
        = Except.error (JsError.named "NotFoundError"
            ("Resource not found: " ++ joinSegs k)))
    ∧ (∀ (b : Backend) (s m p d : String), s ≠ "" →
      (read (remove (write b ["message", s, m] d).2 ["session", p, s]).2
          ["message", s, m]).1
        = Except.error (JsError.named "NotFoundError"
            ("Resource not found: " ++ joinSegs ["message", s, m]))) := by
  constructor
  · intro b k d h
    obtain ⟨x, y, hcase⟩ := supportedKey_cases b k h
    rcases hcase with ⟨rfl, hx, hy⟩ | ⟨rfl, hx, hy⟩ | ⟨rfl, hx, hy, sid, hc, hsid⟩
    · exact rmr_session _ x y
    · exact rmr_message _ x y hx
    · have hfal : ¬ (jsFalsy (cacheResolved b x) = true) := by
        rw [hc]
        simp [jsFalsy, hsid]
      have hcw : cacheResolved (write b ["part", x, y] d).2 x = some sid := by
        show (lookupA (write b ["part", x, y] d).2.messageSessionCache (some x)).join
            = some sid
        rw [write_part_cache b x y d hfal]
        exact hc
      exact rmr_part _ x y sid hcw hsid
  · intro b s m p d hs
    exact cascade_message b s m p d hs

/-- C8 witness: the session write-remove-read sequence on a fresh backend
fails with NotFoundError, and the session-remove cascade makes a previously
written message unreadable. -/
theorem c8_remove_notfound_and_cascade_witness :
    (supportedKey Backend.init ["session", "p", "s1"] = true
      ∧ (read (remove (write Backend.init ["session", "p", "s1"] "v").2
            ["session", "p", "s1"]).2 ["session", "p", "s1"]).1
          = Except.error (JsError.named "NotFoundError"
              ("Resource not found: " ++ joinSegs ["session", "p", "s1"])))
    ∧ (("sX" : String) ≠ ""
      ∧ (read (remove (write Backend.init ["message", "sX", "mA"] "v").2
            ["session", "p", "sX"]).2 ["message", "sX", "mA"]).1
          = Except.error (JsError.named "NotFoundError"
              ("Resource not found: " ++ joinSegs ["message", "sX", "mA"]))) :=
  ⟨⟨by decide,
      c8_remove_notfound_and_cascade.1 Backend.init ["session", "p", "s1"] "v" (by decide)⟩,
    ⟨by decide,
      c8_remove_notfound_and_cascade.2 Backend.init "sX" "mA" "p" "v" (by decide)⟩⟩
